import Mathlib

/-!
Verification development for the speech-to-speech subsystem of the
repository (packages/web/src/hooks/useSpeechToSpeech).  The definitions
below are shallow embeddings of the TypeScript source:

* `useChatHistory.ts` — the transcript reconciler (`tryUpdateMessage`,
  `onTextStart`, `onTextOutput`, `onTextStop`, `setupSystemPrompt`);
* `index.ts` — the audio batching scheduler (`processAudioInput`,
  `dispatchEvent`), session teardown (`stopRecording`, `closeSession`)
  and the audio codec (`float32ArrayToInt16Array`,
  `base64ToFloat32Array`, the browser `atob` base64 decoder).

JavaScript mutable `useRef` caches become explicit state records;
JavaScript object maps become association lists (most recent write
first, looked up first, matching overwrite semantics); thrown
exceptions become an explicit `crashed` flag or `Except`.
-/

namespace SpeechToSpeech

/-- The visible transcript unit: `UnrecordedMessage` restricted to the
fields the reconciler uses (`role`, `content`). -/
structure UnrecordedMessage where
  role : String
  content : String
deriving DecidableEq, Repr

/-- Association-list lookup, first (most recent) binding wins — the
embedding of reading `cache.current[id]` after assignments modelled as
cons. -/
def lookupKey {α : Type} (l : List (String × α)) (k : String) : Option α :=
  match l with
  | [] => none
  | (k', v) :: rest => if k' = k then some v else lookupKey rest k

/-- JavaScript truthiness of an optionally-cached string:
`!cache.current[id]` is true when the entry is missing or is the empty
string. -/
def strTruthy : Option String → Option String
  | some s => if s = "" then none else some s
  | none => none

/-- The state held by the `useChatHistory` hook: the visible `messages`
list, the three per-generation-id caches, the `isAssistantSpeeching`
flag, and a `crashed` marker recording that a state updater threw
(reading `.role` of `undefined`). -/
structure ChatState where
  messages : List UnrecordedMessage
  messageCache : List (String × UnrecordedMessage)
  generationStageCache : List (String × String)
  stopReasonCache : List (String × String)
  isAssistantSpeeching : Bool
  crashed : Bool
deriving DecidableEq, Repr

/-- `clear` from `useChatHistory.ts`: empties the message list and all
three caches. -/
def clear (s : ChatState) : ChatState :=
  { s with messages := [], messageCache := [], generationStageCache := [],
           stopReasonCache := [] }

/-- `setupSystemPrompt` from `useChatHistory.ts`: replaces the message
list with the single system message. -/
def setupSystemPrompt (prompt : String) (s : ChatState) : ChatState :=
  { s with messages := [{ role := "system", content := prompt }] }

/-- The guard of `tryUpdateMessage`: the entry for `id` is promotable
exactly when all three caches hold truthy values for `id`, the cached
generation stage is `FINAL`, and the cached stop reason is not
`INTERRUPTED`. -/
def codePromotable (s : ChatState) (id : String) : Bool :=
  match lookupKey s.messageCache id,
        strTruthy (lookupKey s.generationStageCache id),
        strTruthy (lookupKey s.stopReasonCache id) with
  | some _, some stage, some stop =>
    if stage ≠ "FINAL" then false
    else if stop = "INTERRUPTED" then false
    else true
  | _, _, _ => false

/-- `tryUpdateMessage` from `useChatHistory.ts`: if any of the three
caches misses `id` (JS falsy), or the stage is not `FINAL`, or the stop
reason is `INTERRUPTED`, do nothing; otherwise merge the cached entry
into the message list — reading the last message unconditionally
(`messages[messages.length - 1].role`, which throws on an empty list,
modelled by `crashed := true`), concatenating content with a single
space on equal roles and appending a new message otherwise. -/
def tryUpdateMessage (id : String) (s : ChatState) : ChatState :=
  match lookupKey s.messageCache id,
        strTruthy (lookupKey s.generationStageCache id),
        strTruthy (lookupKey s.stopReasonCache id) with
  | some cached, some stage, some stop =>
    if stage ≠ "FINAL" then s
    else if stop = "INTERRUPTED" then s
    else
      match s.messages.getLast? with
      | none => { s with crashed := true }
      | some lastMessage =>
        if lastMessage.role = cached.role then
          { s with messages := s.messages.dropLast ++
              [{ lastMessage with
                 content := lastMessage.content ++ " " ++ cached.content }] }
        else
          { s with messages := s.messages.dropLast ++
              [lastMessage, { role := cached.role, content := cached.content }] }
  | _, _, _ => s

/-- `onTextStart` from `useChatHistory.ts`: record the generation stage,
attempt resolution, then set `isAssistantSpeeching` from the event's
role and stage. -/
def onTextStart (id role generationStage : String) (s : ChatState) : ChatState :=
  let s1 := { s with generationStageCache := (id, generationStage) :: s.generationStageCache }
  let s2 := tryUpdateMessage id s1
  { s2 with isAssistantSpeeching := role = "assistant" ∧ generationStage = "SPECULATIVE" }

/-- `onTextOutput` from `useChatHistory.ts`: record role and content in
the message cache, then attempt resolution. -/
def onTextOutput (id role content : String) (s : ChatState) : ChatState :=
  let s1 := { s with messageCache := (id, { role := role, content := content }) :: s.messageCache }
  tryUpdateMessage id s1

/-- `onTextStop` from `useChatHistory.ts`: record the stop reason, then
attempt resolution. -/
def onTextStop (id stopReason : String) (s : ChatState) : ChatState :=
  let s1 := { s with stopReasonCache := (id, stopReason) :: s.stopReasonCache }
  tryUpdateMessage id s1

/-- One inbound text-lifecycle event of the reconciler. -/
inductive ChatEvent where
  | start (id role generationStage : String)
  | output (id role content : String)
  | stop (id stopReason : String)
deriving DecidableEq, Repr

/-- Dispatch one `ChatEvent` to its handler. -/
def stepChat (e : ChatEvent) (s : ChatState) : ChatState :=
  match e with
  | .start id role generationStage => onTextStart id role generationStage s
  | .output id role content => onTextOutput id role content s
  | .stop id stopReason => onTextStop id stopReason s

/-- Run a sequence of text-lifecycle events from a given state. -/
def runChat (evs : List ChatEvent) (s : ChatState) : ChatState :=
  evs.foldl (fun s e => stepChat e s) s

/-- A chat state as it is after `setupSystemPrompt p` on a cleared hook:
one system message, empty caches. -/
def seededChatState (p : String) : ChatState :=
  { messages := [{ role := "system", content := p }],
    messageCache := [], generationStageCache := [], stopReasonCache := [],
    isAssistantSpeeching := false, crashed := false }

/-- Resolution condition claimed by the specification for C1 (modelled
from the spec's words, for comparison with the code's
`codePromotable`): role, content and generationStage known, and either
the stage is `FINAL` or a stopReason has been recorded. -/
def specResolvableC1 (s : ChatState) (id : String) : Bool :=
  (lookupKey s.messageCache id).isSome &&
  (lookupKey s.generationStageCache id).isSome &&
  ((lookupKey s.generationStageCache id == some "FINAL") ||
   (lookupKey s.stopReasonCache id).isSome)

/-- A concrete chat state with a promotable entry for `g1`: seeded
system message, cached assistant content, FINAL stage, END_TURN stop. -/
def chatStateEx : ChatState :=
  { messages := [{ role := "system", content := "p" }],
    messageCache := [("g1", { role := "assistant", content := "hello" })],
    generationStageCache := [("g1", "FINAL")],
    stopReasonCache := [("g1", "END_TURN")],
    isAssistantSpeeching := false, crashed := false }

/-- A concrete chat state whose stop-reason cache maps `g1` to
`INTERRUPTED`. -/
def interruptedStateEx : ChatState :=
  { chatStateEx with stopReasonCache := [("g1", "INTERRUPTED")] }

/-- `chatStateEx` with an empty visible message list. -/
def chatStateEmptyEx : ChatState := { chatStateEx with messages := [] }

/-- The chat state after all three caches for `id` have been written
(in any order). -/
def cachedAll (id role content stage stop : String) (s : ChatState) : ChatState :=
  { s with
    messageCache := (id, { role := role, content := content }) :: s.messageCache,
    generationStageCache := (id, stage) :: s.generationStageCache,
    stopReasonCache := (id, stop) :: s.stopReasonCache }

/-! ## Batching scheduler (`processAudioInput` in `index.ts`) -/

/-- `MIN_AUDIO_CHUNKS_PER_BATCH` from `index.ts`. -/
def MIN_AUDIO_CHUNKS_PER_BATCH : Nat := 10

/-- `MAX_AUDIO_CHUNKS_PER_BATCH` from `index.ts`. -/
def MAX_AUDIO_CHUNKS_PER_BATCH : Nat := 20

/-- The dequeue loop of `processAudioInput`: while the queue is
non-empty and fewer than `MAX_AUDIO_CHUNKS_PER_BATCH` chunks have been
accepted, shift a chunk; a truthy (non-empty) chunk is appended to the
batch and counted.  Returns the batch and the remaining queue. -/
def collectChunks : List String → Nat → List String × List String
  | [], _ => ([], [])
  | c :: rest, processed =>
    if processed < MAX_AUDIO_CHUNKS_PER_BATCH then
      if c = "" then collectChunks rest processed
      else
        match collectChunks rest (processed + 1) with
        | (batch, remaining) => (c :: batch, remaining)
    else ([], c :: rest)

/-- The observable outcome of one tick of `processAudioInput`: the
remaining queue, the batches published this tick (zero or one), whether
the tick reached its trailing `setTimeout` (reschedules itself), and
whether the publish rejected (the async function threw). -/
structure TickOutcome where
  queue : List String
  published : List (List String)
  reschedules : Bool
  errored : Bool
deriving DecidableEq, Repr

/-- One tick of `processAudioInput` from `index.ts`: if more than
`MIN_AUDIO_CHUNKS_PER_BATCH` chunks are queued, dequeue up to
`MAX_AUDIO_CHUNKS_PER_BATCH` and publish them via `dispatchEvent`
(which publishes only when a channel is set, and whose `await` rethrows
on a failed publish, aborting the function before the `setTimeout`). -/
def processAudioInputTick (channelOpen publishOk : Bool) (queue : List String) :
    TickOutcome :=
  if queue.length > MIN_AUDIO_CHUNKS_PER_BATCH then
    match collectChunks queue 0 with
    | (chunksToProcess, remaining) =>
      if channelOpen then
        if publishOk then
          { queue := remaining, published := [chunksToProcess],
            reschedules := true, errored := false }
        else
          { queue := remaining, published := [],
            reschedules := false, errored := true }
      else
        { queue := remaining, published := [], reschedules := true, errored := false }
  else
    { queue := queue, published := [], reschedules := true, errored := false }

/-! ## Session controller (`index.ts`) -/

/-- The mutable refs and state of `useSpeechToSpeech` that session
teardown touches, with the channel modelled by whether
`channelRef.current` is set and published events recorded in order. -/
structure SessionState where
  isActive : Bool
  isLoading : Bool
  hasChannel : Bool
  processor : Bool
  sourceNode : Bool
  audioPlayer : Bool
  audioStream : Bool
  audioContext : Bool
  published : List String
deriving DecidableEq, Repr

/-- `dispatchEvent` from `index.ts`: publish the event on the channel
if `channelRef.current` is set, otherwise do nothing. -/
def dispatchEvent (event : String) (s : SessionState) : SessionState :=
  if s.hasChannel then { s with published := s.published ++ [event] } else s

/-- `stopRecording` from `index.ts`: clear the active flag, disconnect
and null the processor, source node, audio player, audio stream and
audio context, then send `audioStop`. -/
def stopRecording (s : SessionState) : SessionState :=
  dispatchEvent "audioStop"
    { s with isActive := false, processor := false, sourceNode := false,
             audioPlayer := false, audioStream := false, audioContext := false }

/-- `closeSession` from `index.ts`: `stopRecording`, then clear the
active and loading flags.  It never closes or clears the channel. -/
def closeSession (s : SessionState) : SessionState :=
  { stopRecording s with isActive := false, isLoading := false }

/-- A concrete queue of 12 non-empty chunks (above the low-water
mark). -/
def queue12Ex : List String :=
  ["c01", "c02", "c03", "c04", "c05", "c06",
   "c07", "c08", "c09", "c10", "c11", "c12"]

/-- A concrete session state in the Active configuration. -/
def sessionActiveEx : SessionState :=
  { isActive := true, isLoading := false, hasChannel := true, processor := true,
    sourceNode := true, audioPlayer := true, audioStream := true,
    audioContext := true, published := [] }

/-! ## Scheduler traces for the batching bounds -/

/-- State of the outbound audio pipeline observed over a trace: the
queue fed by the capture callback, and the audioInput batches published
so far, in order. -/
structure SchedState where
  queue : List String
  batches : List (List String)
deriving DecidableEq, Repr

/-- One step of a scheduler trace: the capture callback enqueues one
encoded chunk (`audioInputQueue.current.push`), or the scheduler loop
runs one successful tick on an open channel. -/
inductive SchedStep where
  | enqueue (chunk : String)
  | tick
deriving DecidableEq, Repr

/-- Apply one trace step. -/
def schedStep (st : SchedStep) (s : SchedState) : SchedState :=
  match st with
  | .enqueue c => { s with queue := s.queue ++ [c] }
  | .tick =>
    let o := processAudioInputTick true true s.queue
    { queue := o.queue, batches := s.batches ++ o.published }

/-- Run a trace from the initial state (empty queue, nothing
published). -/
def schedRun (steps : List SchedStep) : SchedState :=
  steps.foldl (fun s st => schedStep st s) { queue := [], batches := [] }

/-- The chunks a trace enqueues, in order. -/
def enqueuedChunks (steps : List SchedStep) : List String :=
  steps.filterMap (fun st =>
    match st with
    | .enqueue c => some c
    | .tick => none)

/-- A concrete trace: twelve enqueues followed by one tick. -/
def steps12Ex : List SchedStep :=
  (queue12Ex.map SchedStep.enqueue) ++ [SchedStep.tick]

/-! ## Audio codec -/

/-- Truncation toward zero of a rational: what JavaScript's ToInt16
conversion does to an in-range value when it is stored into an
`Int16Array`. -/
def truncRat (q : Rat) : Int := if 0 ≤ q then ⌊q⌋ else ⌈q⌉

/-- The clamp `Math.max(-1, Math.min(1, v))` from
`float32ArrayToInt16Array` in `index.ts`. -/
def clampSample (x : Rat) : Rat := max (-1) (min 1 x)

/-- `float32ArrayToInt16Array` from `index.ts`: clamp each sample to
[-1, 1], scale by 0x7fff, and store into an `Int16Array` (truncation
toward zero; the clamped scaled value is always within int16 range). -/
def float32ArrayToInt16Array (xs : List Rat) : List Int :=
  xs.map (fun x => truncRat (clampSample x * 32767))

/-- The inverse scaling loop of `base64ToFloat32Array` in `index.ts`:
each int16 sample is divided by 32768.0. -/
def int16ToFloat32Array (vs : List Int) : List Rat :=
  vs.map (fun v => (v : Rat) / 32768)

/-- The numeric round trip `pcm16ToFloat(floatToPCM16(x))`:
`float32ArrayToInt16Array` followed by the int16-to-float scaling. -/
def roundTrip (xs : List Rat) : List Rat :=
  int16ToFloat32Array (float32ArrayToInt16Array xs)

/-! ## Base64 decoding and the playback handler -/

/-- The base64 value of one character of the standard alphabet, as the
browser `atob` accepts it. -/
def b64Val (c : Char) : Option Nat :=
  if 'A' ≤ c ∧ c ≤ 'Z' then some (c.toNat - 'A'.toNat)
  else if 'a' ≤ c ∧ c ≤ 'z' then some (c.toNat - 'a'.toNat + 26)
  else if '0' ≤ c ∧ c ≤ '9' then some (c.toNat - '0'.toNat + 52)
  else if c = '+' then some 62
  else if c = '/' then some 63
  else none

/-- Reassemble decoded sextets into bytes (6 bits each, big-endian
within a group of four), discarding leftover trailing bits, as `atob`
does for a final group of two or three characters. -/
def sextetsToBytes : List Nat → List Nat
  | a :: b :: c :: d :: rest =>
    (a * 4 + b / 16) :: ((b % 16) * 16 + c / 4) :: ((c % 4) * 64 + d) ::
      sextetsToBytes rest
  | [a, b] => [a * 4 + b / 16]
  | [a, b, c] => [a * 4 + b / 16, (b % 16) * 16 + c / 4]
  | _ => []

/-- Strip up to two trailing `=` padding characters. -/
def stripPad (cs : List Char) : List Char :=
  match cs.reverse with
  | '=' :: '=' :: rest => rest.reverse
  | '=' :: rest => rest.reverse
  | _ => cs

/-- The browser `atob` (forgiving-base64 without whitespace): when the
length is a multiple of 4, strip up to two trailing `=`; fail when the
remaining length is 1 mod 4 or any character is outside the alphabet;
otherwise decode sextets to bytes. -/
def atob (s : String) : Option (List Nat) :=
  let cs := s.toList
  let data := if cs.length % 4 = 0 then stripPad cs else cs
  if data.length % 4 = 1 then none
  else (data.mapM b64Val).map sextetsToBytes

/-- A byte pair read little-endian as a signed 16-bit sample, as an
`Int16Array` view of the decoded buffer presents it. -/
def toInt16 (n : Nat) : Int :=
  if n % 65536 < 32768 then (n % 65536 : Int) else (n % 65536 : Int) - 65536

/-- Consume the byte list two at a time, little-endian. -/
def pairsToInt16 : List Nat → List Int
  | lo :: hi :: rest => toInt16 (lo + 256 * hi) :: pairsToInt16 rest
  | _ => []

/-- `new Int16Array(bytes.buffer)`: fails (throws a RangeError) on an
odd byte count, otherwise views the bytes as int16 samples. -/
def bytesToInt16 (bytes : List Nat) : Option (List Int) :=
  if bytes.length % 2 = 0 then some (pairsToInt16 bytes) else none

/-- `base64ToFloat32Array` from `index.ts`: decode the base64 chunk
with `atob`, view the bytes as little-endian int16 samples, scale each
by 1/32768; any failure is caught, logged, and rethrown — so the error
propagates to the caller. -/
def base64ToFloat32Array (s : String) : Except String (List Rat) :=
  match atob s with
  | none => .error "InvalidCharacterError"
  | some bytes =>
    match bytesToInt16 bytes with
    | none => .error "RangeError"
    | some samples => .ok (int16ToFloat32Array samples)

/-- The `audioOutput` branch of the subscription handler in `index.ts`:
drain the chunk list front to back; each truthy chunk is decoded and
played; a decode failure propagates out of the handler, abandoning the
remaining chunks.  Returns the played sample lists in order. -/
def playChunks : List String → Except String (List (List Rat))
  | [] => .ok []
  | c :: rest =>
    if c = "" then playChunks rest
    else
      match base64ToFloat32Array c with
      | .error e => .error e
      | .ok audio =>
        match playChunks rest with
        | .error e => .error e
        | .ok others => .ok (audio :: others)

deriving instance DecidableEq for Except

/-- Handler behavior claimed by the specification for C7 (modelled from
the spec's words, for comparison with the code's `playChunks`): an
undecodable chunk is dropped with a logged warning and processing
continues with the remaining chunks. -/
def specPlayChunks : List String → List (List Rat)
  | [] => []
  | c :: rest =>
    match base64ToFloat32Array c with
    | .error _ => specPlayChunks rest
    | .ok audio => audio :: specPlayChunks rest

/-- If the promotion guard fails, `tryUpdateMessage` is the identity. -/
theorem tryUpdateMessage_eq_of_not_promotable (s : ChatState) (id : String)
    (h : codePromotable s id = false) : tryUpdateMessage id s = s := by
  rcases hm : lookupKey s.messageCache id with _ | cached <;>
    rcases hg : strTruthy (lookupKey s.generationStageCache id) with _ | stage <;>
      rcases hp : strTruthy (lookupKey s.stopReasonCache id) with _ | stop <;>
        simp only [tryUpdateMessage, codePromotable, hm, hg, hp] at h ⊢
  by_cases hs : stage = "FINAL"
  · by_cases hi : stop = "INTERRUPTED"
    · simp [hs, hi]
    · simp [hs, hi] at h
  · simp [hs]

/-- If the promotion guard holds and the message list is non-empty, the
merge step changes the visible message list. -/
theorem tryUpdateMessage_messages_ne_of_promotable (s : ChatState) (id : String)
    (hne : s.messages ≠ []) (h : codePromotable s id = true) :
    (tryUpdateMessage id s).messages ≠ s.messages := by
  rcases hm : lookupKey s.messageCache id with _ | cached <;>
    rcases hg : strTruthy (lookupKey s.generationStageCache id) with _ | stage <;>
      rcases hp : strTruthy (lookupKey s.stopReasonCache id) with _ | stop <;>
        simp only [tryUpdateMessage, codePromotable, hm, hg, hp] at h ⊢ <;>
        try simp at h
  by_cases hs : stage = "FINAL"
  · by_cases hi : stop = "INTERRUPTED"
    · simp [hs, hi] at h
    · rcases hl : s.messages.getLast? with _ | lastMessage
      · exact absurd (List.getLast?_eq_none_iff.mp hl) hne
      · have hsplit : s.messages.dropLast ++ [lastMessage] = s.messages :=
          List.dropLast_append_getLast? lastMessage (Option.mem_def.mpr hl)
        simp only [hs, hi, hl]
        by_cases hr : lastMessage.role = cached.role
        · rw [if_pos hr]
          show s.messages.dropLast ++
              [{ lastMessage with
                 content := lastMessage.content ++ " " ++ cached.content }] ≠ s.messages
          intro heq
          have hlast : s.messages.getLast? =
              some { lastMessage with
                     content := lastMessage.content ++ " " ++ cached.content } := by
            rw [← heq]
            exact List.getLast?_concat _
          rw [hl] at hlast
          have hcontent := congrArg UnrecordedMessage.content (Option.some.inj hlast)
          have hlen := congrArg String.length hcontent
          have hsp : (" " : String).length = 1 := rfl
          simp only [String.length_append] at hlen
          omega
        · rw [if_neg hr]
          show s.messages.dropLast ++
              [lastMessage, { role := cached.role, content := cached.content }] ≠ s.messages
          intro heq
          have hlen := congrArg List.length heq
          have hlen' := congrArg List.length hsplit
          simp only [List.length_append, List.length_cons, List.length_nil] at hlen hlen'
          omega
  · simp [hs] at h

/-- C1: the claim states that an entry is promoted exactly when role,
content and generationStage are known and either the stage is FINAL or
a stopReason has been recorded; in particular that a SPECULATIVE entry
with a non-INTERRUPTED stop reason resolves, and that a FINAL entry
resolves without any stop reason.  Counterexample: after
`onTextStart(g1, assistant, SPECULATIVE); onTextOutput(g1, assistant,
"hello"); onTextStop(g1, END_TURN)` the spec-side condition holds, yet
the message list still contains only the system message; likewise a
FINAL entry without a recorded stop reason is not promoted. -/
theorem C1_counterexample :
    (specResolvableC1
        (runChat
          [.start "g1" "assistant" "SPECULATIVE",
           .output "g1" "assistant" "hello",
           .stop "g1" "END_TURN"]
          (seededChatState "p")) "g1" = true ∧
      (runChat
          [.start "g1" "assistant" "SPECULATIVE",
           .output "g1" "assistant" "hello",
           .stop "g1" "END_TURN"]
          (seededChatState "p")).messages =
        [{ role := "system", content := "p" }]) ∧
    (specResolvableC1
        (runChat
          [.start "g2" "assistant" "FINAL",
           .output "g2" "assistant" "hello"]
          (seededChatState "p")) "g2" = true ∧
      (runChat
          [.start "g2" "assistant" "FINAL",
           .output "g2" "assistant" "hello"]
          (seededChatState "p")).messages =
        [{ role := "system", content := "p" }]) := by decide

/-- C1 (amended): an entry is promoted into the visible message list
exactly when role, content, generationStage and stopReason are all
recorded (and truthy), the generationStage is FINAL, and the stopReason
is not INTERRUPTED — on a non-empty message list, `tryUpdateMessage`
changes the visible list precisely under that guard. -/
theorem C1_amended (s : ChatState) (id : String) (hne : s.messages ≠ []) :
    (tryUpdateMessage id s).messages ≠ s.messages ↔ codePromotable s id = true := by
  constructor
  · intro hch
    by_contra hcp
    rw [Bool.not_eq_true] at hcp
    exact hch (congrArg ChatState.messages (tryUpdateMessage_eq_of_not_promotable s id hcp))
  · exact tryUpdateMessage_messages_ne_of_promotable s id hne

/-- Witness for C1 (amended) at the concrete state `chatStateEx`. -/
theorem C1_amended_witness :
    (tryUpdateMessage "g1" chatStateEx).messages ≠ chatStateEx.messages ↔
      codePromotable chatStateEx "g1" = true :=
  C1_amended chatStateEx "g1" (by decide)

/-- If the cached stop reason for `id` is `INTERRUPTED`, then
`tryUpdateMessage` never changes the state: the entry contributes no
content. -/
theorem tryUpdateMessage_eq_of_interrupted (s : ChatState) (id : String)
    (h : lookupKey s.stopReasonCache id = some "INTERRUPTED") :
    tryUpdateMessage id s = s := by
  have hstop : strTruthy (lookupKey s.stopReasonCache id) = some "INTERRUPTED" := by
    rw [h]; rfl
  rcases hm : lookupKey s.messageCache id with _ | cached <;>
    rcases hg : strTruthy (lookupKey s.generationStageCache id) with _ | stage <;>
      simp only [tryUpdateMessage, hm, hg, hstop] <;> try rfl
  by_cases hs : stage = "FINAL" <;> simp [hs]

/-- C2: the claim states that an INTERRUPTED resolution sets a global
interrupted flag and that, while it is set, every later resolved
assistant entry is dropped; in particular that the six-event sequence
`start(id1,assistant,SPECULATIVE); output(id1,assistant,"hello");
stop(id1,INTERRUPTED); start(id2,assistant,FINAL);
output(id2,assistant,"world"); stop(id2,END_TURN)` yields a transcript
with no assistant message.  Counterexample: running that exact sequence
from a seeded state yields a transcript that does contain an assistant
message, `"world"`. -/
theorem C2_counterexample :
    (runChat
        [.start "id1" "assistant" "SPECULATIVE",
         .output "id1" "assistant" "hello",
         .stop "id1" "INTERRUPTED",
         .start "id2" "assistant" "FINAL",
         .output "id2" "assistant" "world",
         .stop "id2" "END_TURN"]
        (seededChatState "p")).messages =
      [{ role := "system", content := "p" },
       { role := "assistant", content := "world" }] ∧
    ((runChat
        [.start "id1" "assistant" "SPECULATIVE",
         .output "id1" "assistant" "hello",
         .stop "id1" "INTERRUPTED",
         .start "id2" "assistant" "FINAL",
         .output "id2" "assistant" "world",
         .stop "id2" "END_TURN"]
        (seededChatState "p")).messages.any
          (fun m => m.role == "assistant")) = true := by decide

/-- C2 (amended): an entry whose cached stopReason is INTERRUPTED
contributes no content (resolution is a no-op for it), but there is no
global interrupted flag: a subsequently resolved assistant entry is
appended normally, so the six-event sequence of the claim yields the
transcript `[system, assistant "world"]` (after the first three events
the transcript is still just the system message). -/
theorem C2_amended :
    (∀ (s : ChatState) (id : String),
        lookupKey s.stopReasonCache id = some "INTERRUPTED" →
          tryUpdateMessage id s = s) ∧
    (runChat
        [.start "id1" "assistant" "SPECULATIVE",
         .output "id1" "assistant" "hello",
         .stop "id1" "INTERRUPTED"]
        (seededChatState "p")).messages =
      [{ role := "system", content := "p" }] ∧
    (runChat
        [.start "id1" "assistant" "SPECULATIVE",
         .output "id1" "assistant" "hello",
         .stop "id1" "INTERRUPTED",
         .start "id2" "assistant" "FINAL",
         .output "id2" "assistant" "world",
         .stop "id2" "END_TURN"]
        (seededChatState "p")).messages =
      [{ role := "system", content := "p" },
       { role := "assistant", content := "world" }] :=
  ⟨tryUpdateMessage_eq_of_interrupted, by decide, by decide⟩

/-- Witness for C2 (amended): the INTERRUPTED no-op conjunct applied at
the concrete state `interruptedStateEx`. -/
theorem C2_amended_witness :
    tryUpdateMessage "g1" interruptedStateEx = interruptedStateEx :=
  C2_amended.1 interruptedStateEx "g1" (by decide)

/-- C10: whenever the promotion guard of `tryUpdateMessage` holds but
the visible message list is empty, the merge step's unconditional read
of the last message's role fails (crash) and nothing is appended: the
entry is not added as a first message. -/
theorem C10_resolution_requires_nonempty (s : ChatState) (id : String)
    (h : codePromotable s id = true) (hemp : s.messages = []) :
    (tryUpdateMessage id s).crashed = true ∧ (tryUpdateMessage id s).messages = [] := by
  rcases hm : lookupKey s.messageCache id with _ | cached <;>
    rcases hg : strTruthy (lookupKey s.generationStageCache id) with _ | stage <;>
      rcases hp : strTruthy (lookupKey s.stopReasonCache id) with _ | stop <;>
        simp only [tryUpdateMessage, codePromotable, hm, hg, hp] at h ⊢ <;>
        try simp at h
  by_cases hs : stage = "FINAL"
  · by_cases hi : stop = "INTERRUPTED"
    · simp [hs, hi] at h
    · simp [hs, hi, hemp]
  · simp [hs] at h

/-- Witness for C10 at the concrete state `chatStateEmptyEx`. -/
theorem C10_resolution_requires_nonempty_witness :
    (tryUpdateMessage "g1" chatStateEmptyEx).crashed = true ∧
      (tryUpdateMessage "g1" chatStateEmptyEx).messages = [] :=
  C10_resolution_requires_nonempty chatStateEmptyEx "g1" (by decide) (by decide)

/-- `tryUpdateMessage` is the identity when the message cache misses. -/
theorem tryUpdateMessage_eq_of_msg_none (s : ChatState) (id : String)
    (h : lookupKey s.messageCache id = none) : tryUpdateMessage id s = s := by
  simp only [tryUpdateMessage, h]

/-- `tryUpdateMessage` is the identity when the stage cache misses. -/
theorem tryUpdateMessage_eq_of_stage_none (s : ChatState) (id : String)
    (h : strTruthy (lookupKey s.generationStageCache id) = none) :
    tryUpdateMessage id s = s := by
  rcases hm : lookupKey s.messageCache id with _ | c <;>
    simp only [tryUpdateMessage, hm, h]

/-- `tryUpdateMessage` is the identity when the stop-reason cache
misses. -/
theorem tryUpdateMessage_eq_of_stop_none (s : ChatState) (id : String)
    (h : strTruthy (lookupKey s.stopReasonCache id) = none) :
    tryUpdateMessage id s = s := by
  rcases hm : lookupKey s.messageCache id with _ | c <;>
    rcases hg : strTruthy (lookupKey s.generationStageCache id) with _ | g <;>
      simp only [tryUpdateMessage, hm, hg, h]

/-- `tryUpdateMessage` neither reads nor writes `isAssistantSpeeching`,
so it commutes with setting that flag. -/
theorem tryUpdateMessage_isAS (id : String) (b : Bool) (s : ChatState) :
    tryUpdateMessage id { s with isAssistantSpeeching := b } =
      { tryUpdateMessage id s with isAssistantSpeeching := b } := by
  rcases hm : lookupKey s.messageCache id with _ | cached <;>
    rcases hg : strTruthy (lookupKey s.generationStageCache id) with _ | stage <;>
      rcases hp : strTruthy (lookupKey s.stopReasonCache id) with _ | stop <;>
        simp only [tryUpdateMessage, hm, hg, hp] <;> try rfl
  by_cases hs : stage = "FINAL"
  · by_cases hi : stop = "INTERRUPTED"
    · simp [hs, hi]
    · rcases hl : s.messages.getLast? with _ | last
      · simp [hs, hi, hl]
      · by_cases hr : last.role = cached.role <;> simp [hs, hi, hl, hr]
  · simp [hs]

/-- `onTextStart` on a state whose message cache misses `id` only
records the stage and sets the speeching flag. -/
theorem onTextStart_of_msg_none (id role stage : String) (s : ChatState)
    (h : lookupKey s.messageCache id = none) :
    onTextStart id role stage s =
      { s with generationStageCache := (id, stage) :: s.generationStageCache,
               isAssistantSpeeching := decide (role = "assistant" ∧ stage = "SPECULATIVE") } := by
  show { tryUpdateMessage id
          { s with generationStageCache := (id, stage) :: s.generationStageCache } with
         isAssistantSpeeching := decide (role = "assistant" ∧ stage = "SPECULATIVE") } = _
  rw [tryUpdateMessage_eq_of_msg_none
    { s with generationStageCache := (id, stage) :: s.generationStageCache } id h]

/-- `onTextStart` on a state whose stop-reason cache misses `id` only
records the stage and sets the speeching flag. -/
theorem onTextStart_of_stop_none (id role stage : String) (s : ChatState)
    (h : strTruthy (lookupKey s.stopReasonCache id) = none) :
    onTextStart id role stage s =
      { s with generationStageCache := (id, stage) :: s.generationStageCache,
               isAssistantSpeeching := decide (role = "assistant" ∧ stage = "SPECULATIVE") } := by
  show { tryUpdateMessage id
          { s with generationStageCache := (id, stage) :: s.generationStageCache } with
         isAssistantSpeeching := decide (role = "assistant" ∧ stage = "SPECULATIVE") } = _
  rw [tryUpdateMessage_eq_of_stop_none
    { s with generationStageCache := (id, stage) :: s.generationStageCache } id h]

/-- `onTextOutput` on a state whose stage cache misses `id` only
records the message. -/
theorem onTextOutput_of_stage_none (id role content : String) (s : ChatState)
    (h : strTruthy (lookupKey s.generationStageCache id) = none) :
    onTextOutput id role content s =
      { s with messageCache :=
          (id, { role := role, content := content }) :: s.messageCache } := by
  show tryUpdateMessage id
      { s with messageCache := (id, { role := role, content := content }) :: s.messageCache } = _
  rw [tryUpdateMessage_eq_of_stage_none
    { s with messageCache := (id, { role := role, content := content }) :: s.messageCache } id h]

/-- `onTextOutput` on a state whose stop-reason cache misses `id` only
records the message. -/
theorem onTextOutput_of_stop_none (id role content : String) (s : ChatState)
    (h : strTruthy (lookupKey s.stopReasonCache id) = none) :
    onTextOutput id role content s =
      { s with messageCache :=
          (id, { role := role, content := content }) :: s.messageCache } := by
  show tryUpdateMessage id
      { s with messageCache := (id, { role := role, content := content }) :: s.messageCache } = _
  rw [tryUpdateMessage_eq_of_stop_none
    { s with messageCache := (id, { role := role, content := content }) :: s.messageCache } id h]

/-- `onTextStop` on a state whose message cache misses `id` only
records the stop reason. -/
theorem onTextStop_of_msg_none (id stopReason : String) (s : ChatState)
    (h : lookupKey s.messageCache id = none) :
    onTextStop id stopReason s =
      { s with stopReasonCache := (id, stopReason) :: s.stopReasonCache } := by
  show tryUpdateMessage id
      { s with stopReasonCache := (id, stopReason) :: s.stopReasonCache } = _
  rw [tryUpdateMessage_eq_of_msg_none
    { s with stopReasonCache := (id, stopReason) :: s.stopReasonCache } id h]

/-- `onTextStop` on a state whose stage cache misses `id` only records
the stop reason. -/
theorem onTextStop_of_stage_none (id stopReason : String) (s : ChatState)
    (h : strTruthy (lookupKey s.generationStageCache id) = none) :
    onTextStop id stopReason s =
      { s with stopReasonCache := (id, stopReason) :: s.stopReasonCache } := by
  show tryUpdateMessage id
      { s with stopReasonCache := (id, stopReason) :: s.stopReasonCache } = _
  rw [tryUpdateMessage_eq_of_stage_none
    { s with stopReasonCache := (id, stopReason) :: s.stopReasonCache } id h]

/-- C3: for a fixed fresh generation id, all 6 permutations of the call
order of `onTextStart(id, role, stage)`, `onTextOutput(id, role,
content)`, `onTextStop(id, stop)`, each called exactly once, produce
the identical final reconciler state — same resolved entry caches and
same message list. -/
theorem C3_permutation_invariance (id role content stage stop : String) (s : ChatState)
    (hm : lookupKey s.messageCache id = none)
    (hg : lookupKey s.generationStageCache id = none)
    (hp : lookupKey s.stopReasonCache id = none) :
    ∀ p ∈ [[ChatEvent.start id role stage, ChatEvent.output id role content,
             ChatEvent.stop id stop],
           [ChatEvent.start id role stage, ChatEvent.stop id stop,
             ChatEvent.output id role content],
           [ChatEvent.output id role content, ChatEvent.start id role stage,
             ChatEvent.stop id stop],
           [ChatEvent.output id role content, ChatEvent.stop id stop,
             ChatEvent.start id role stage],
           [ChatEvent.stop id stop, ChatEvent.start id role stage,
             ChatEvent.output id role content],
           [ChatEvent.stop id stop, ChatEvent.output id role content,
             ChatEvent.start id role stage]],
      runChat p s =
        runChat [ChatEvent.start id role stage, ChatEvent.output id role content,
                 ChatEvent.stop id stop] s := by
  have hg' : strTruthy (lookupKey s.generationStageCache id) = none := by rw [hg]; rfl
  have hp' : strTruthy (lookupKey s.stopReasonCache id) = none := by rw [hp]; rfl
  have hcanon :
      runChat [ChatEvent.start id role stage, ChatEvent.output id role content,
               ChatEvent.stop id stop] s =
        { tryUpdateMessage id (cachedAll id role content stage stop s) with
          isAssistantSpeeching := decide (role = "assistant" ∧ stage = "SPECULATIVE") } := by
    show onTextStop id stop (onTextOutput id role content (onTextStart id role stage s)) = _
    rw [onTextStart_of_msg_none id role stage s hm]
    rw [onTextOutput_of_stop_none id role content
      { s with generationStageCache := (id, stage) :: s.generationStageCache,
               isAssistantSpeeching := decide (role = "assistant" ∧ stage = "SPECULATIVE") } hp']
    show tryUpdateMessage id
        { cachedAll id role content stage stop s with
          isAssistantSpeeching := decide (role = "assistant" ∧ stage = "SPECULATIVE") } = _
    exact tryUpdateMessage_isAS _ _ _
  intro p hmem
  fin_cases hmem
  · rfl
  · -- start, stop, output
    refine Eq.trans ?_ hcanon.symm
    show onTextOutput id role content (onTextStop id stop (onTextStart id role stage s)) = _
    rw [onTextStart_of_msg_none id role stage s hm]
    rw [onTextStop_of_msg_none id stop
      { s with generationStageCache := (id, stage) :: s.generationStageCache,
               isAssistantSpeeching := decide (role = "assistant" ∧ stage = "SPECULATIVE") } hm]
    show tryUpdateMessage id
        { cachedAll id role content stage stop s with
          isAssistantSpeeching := decide (role = "assistant" ∧ stage = "SPECULATIVE") } = _
    exact tryUpdateMessage_isAS _ _ _
  · -- output, start, stop
    refine Eq.trans ?_ hcanon.symm
    show onTextStop id stop (onTextStart id role stage (onTextOutput id role content s)) = _
    rw [onTextOutput_of_stage_none id role content s hg']
    rw [onTextStart_of_stop_none id role stage
      { s with messageCache := (id, { role := role, content := content }) :: s.messageCache } hp']
    show tryUpdateMessage id
        { cachedAll id role content stage stop s with
          isAssistantSpeeching := decide (role = "assistant" ∧ stage = "SPECULATIVE") } = _
    exact tryUpdateMessage_isAS _ _ _
  · -- output, stop, start
    refine Eq.trans ?_ hcanon.symm
    show onTextStart id role stage (onTextStop id stop (onTextOutput id role content s)) = _
    rw [onTextOutput_of_stage_none id role content s hg']
    rw [onTextStop_of_stage_none id stop
      { s with messageCache := (id, { role := role, content := content }) :: s.messageCache } hg']
    rfl
  · -- stop, start, output
    refine Eq.trans ?_ hcanon.symm
    show onTextOutput id role content (onTextStart id role stage (onTextStop id stop s)) = _
    rw [onTextStop_of_msg_none id stop s hm]
    rw [onTextStart_of_msg_none id role stage
      { s with stopReasonCache := (id, stop) :: s.stopReasonCache } hm]
    show tryUpdateMessage id
        { cachedAll id role content stage stop s with
          isAssistantSpeeching := decide (role = "assistant" ∧ stage = "SPECULATIVE") } = _
    exact tryUpdateMessage_isAS _ _ _
  · -- stop, output, start
    refine Eq.trans ?_ hcanon.symm
    show onTextStart id role stage (onTextOutput id role content (onTextStop id stop s)) = _
    rw [onTextStop_of_msg_none id stop s hm]
    rw [onTextOutput_of_stage_none id role content
      { s with stopReasonCache := (id, stop) :: s.stopReasonCache } hg']
    rfl

/-- Witness for C3: one non-canonical permutation at concrete inputs on
an empty-cache seeded state equals the canonical order. -/
theorem C3_permutation_invariance_witness :
    runChat
        [ChatEvent.stop "g1" "END_TURN",
         ChatEvent.output "g1" "assistant" "hello",
         ChatEvent.start "g1" "assistant" "FINAL"]
        (seededChatState "p") =
      runChat
        [ChatEvent.start "g1" "assistant" "FINAL",
         ChatEvent.output "g1" "assistant" "hello",
         ChatEvent.stop "g1" "END_TURN"]
        (seededChatState "p") :=
  C3_permutation_invariance "g1" "assistant" "hello" "FINAL" "END_TURN"
    (seededChatState "p") (by decide) (by decide) (by decide)
    _ (by simp)

/-- With positive remaining budget and truthy chunks, the dequeue loop
takes exactly the budget off the front of the queue. -/
theorem collectChunks_eq (q : List String) (p : Nat)
    (hq : ∀ c ∈ q, c ≠ "") (hp : p ≤ MAX_AUDIO_CHUNKS_PER_BATCH) :
    collectChunks q p =
      (q.take (MAX_AUDIO_CHUNKS_PER_BATCH - p), q.drop (MAX_AUDIO_CHUNKS_PER_BATCH - p)) := by
  induction q generalizing p with
  | nil => simp [collectChunks]
  | cons c rest ih =>
    by_cases hlt : p < MAX_AUDIO_CHUNKS_PER_BATCH
    · have hc : c ≠ "" := hq c (by simp)
      rw [collectChunks, if_pos hlt, if_neg hc,
        ih (p + 1) (fun x hx => hq x (List.mem_cons_of_mem c hx)) (by omega)]
      have hsub : MAX_AUDIO_CHUNKS_PER_BATCH - p =
          (MAX_AUDIO_CHUNKS_PER_BATCH - (p + 1)) + 1 := by omega
      simp [hsub]
    · have hpe : MAX_AUDIO_CHUNKS_PER_BATCH - p = 0 := by omega
      rw [collectChunks, if_neg hlt]
      simp [hpe]

/-- A tick that finds at most the low-water mark of chunks publishes
nothing and leaves the queue untouched. -/
theorem processAudioInputTick_skip (co pok : Bool) (q : List String)
    (h : ¬ q.length > MIN_AUDIO_CHUNKS_PER_BATCH) :
    processAudioInputTick co pok q =
      { queue := q, published := [], reschedules := true, errored := false } := by
  unfold processAudioInputTick
  rw [if_neg h]

/-- A successful tick over more than the low-water mark of truthy
chunks publishes the first `MAX_AUDIO_CHUNKS_PER_BATCH` chunks as one
batch. -/
theorem processAudioInputTick_publishes (q : List String)
    (hq : ∀ c ∈ q, c ≠ "") (hlen : q.length > MIN_AUDIO_CHUNKS_PER_BATCH) :
    processAudioInputTick true true q =
      { queue := q.drop MAX_AUDIO_CHUNKS_PER_BATCH,
        published := [q.take MAX_AUDIO_CHUNKS_PER_BATCH],
        reschedules := true, errored := false } := by
  unfold processAudioInputTick
  rw [if_pos hlen, collectChunks_eq q 0 hq (by omega)]
  simp

/-- Every non-failing tick reaches its trailing `setTimeout` and
reschedules itself, whatever the queue or channel state. -/
theorem tick_reschedules (co : Bool) (q : List String) :
    (processAudioInputTick co true q).reschedules = true := by
  unfold processAudioInputTick
  by_cases h : q.length > MIN_AUDIO_CHUNKS_PER_BATCH
  · rw [if_pos h]
    rcases collectChunks q 0 with ⟨a, b⟩
    cases co <;> simp
  · rw [if_neg h]

/-- `closeSession` leaves the channel reference untouched. -/
theorem closeSession_hasChannel (s : SessionState) :
    (closeSession s).hasChannel = s.hasChannel := by
  unfold closeSession stopRecording dispatchEvent
  split <;> rfl

/-- C4: the claim states that when a publish of an audioInput batch
fails, the dequeued chunks are requeued at the front of the queue in
order, the loop reschedules itself, and the batch is retried.
Counterexample: on a queue of 12 chunks with a failing publish, the
tick ends with an empty queue (the 12 dequeued chunks are lost, not
requeued) and does not reschedule. -/
theorem C4_counterexample :
    processAudioInputTick true false queue12Ex =
      { queue := [], published := [], reschedules := false, errored := true } ∧
    (processAudioInputTick true false queue12Ex).queue ≠ queue12Ex ∧
    (processAudioInputTick true false queue12Ex).reschedules ≠ true := by decide

/-- C4 (amended): when a publish of an audioInput batch fails, the
await rethrows inside `processAudioInput`: the already-dequeued chunks
are dropped (the queue keeps only what the dequeue loop left), nothing
is published, and the trailing `setTimeout` is never reached, so the
loop does not reschedule and the batch is not retried. -/
theorem C4_amended (q : List String) (h : q.length > MIN_AUDIO_CHUNKS_PER_BATCH) :
    processAudioInputTick true false q =
      { queue := (collectChunks q 0).2, published := [],
        reschedules := false, errored := true } := by
  unfold processAudioInputTick
  rw [if_pos h]
  rcases hc : collectChunks q 0 with ⟨batch, remaining⟩
  simp [hc]

/-- Witness for C4 (amended) at the concrete 12-chunk queue. -/
theorem C4_amended_witness :
    processAudioInputTick true false queue12Ex =
      { queue := (collectChunks queue12Ex 0).2, published := [],
        reschedules := false, errored := true } :=
  C4_amended queue12Ex (by decide)

/-- C5: the claim states that after `closeSession()` the batching loop
never reschedules itself, an active guard flag being checked at the top
of each tick.  Counterexample: from a closed session (which leaves the
channel set) a tick over 12 queued chunks still publishes a batch and
still reschedules itself — there is no guard. -/
theorem C5_counterexample :
    (closeSession sessionActiveEx).isActive = false ∧
    (processAudioInputTick (closeSession sessionActiveEx).hasChannel true
        queue12Ex).reschedules = true ∧
    (processAudioInputTick (closeSession sessionActiveEx).hasChannel true
        queue12Ex).published ≠ [] := by decide

/-- C5 (amended): `processAudioInput` checks no active-guard flag:
after `closeSession` (which preserves the channel reference) every
non-failing tick still reschedules itself, and in general every
non-failing tick reschedules regardless of session state. -/
theorem C5_amended :
    (∀ (s : SessionState) (q : List String),
        (closeSession s).hasChannel = s.hasChannel ∧
        (processAudioInputTick (closeSession s).hasChannel true q).reschedules = true) ∧
    (∀ (channelOpen : Bool) (q : List String),
        (processAudioInputTick channelOpen true q).reschedules = true) :=
  ⟨fun s q => ⟨closeSession_hasChannel s, tick_reschedules _ q⟩,
   fun co q => tick_reschedules co q⟩

/-- C8: the claim states that `closeSession()` from the Active state
closes the Channel Transport and that a further publish fails with
Closed.  Counterexample: after `closeSession` on an active session the
channel is still set and a further publish is still delivered
(appended to the published events). -/
theorem C8_counterexample :
    (closeSession sessionActiveEx).hasChannel = true ∧
    (dispatchEvent "audioInput" (closeSession sessionActiveEx)).published =
      (closeSession sessionActiveEx).published ++ ["audioInput"] := by decide

/-- C8 (amended): `closeSession()` on a session with a channel stops
the capture pipeline state, tears down the audio resources, sends
`audioStop`, and clears the active and loading flags — but it never
closes the Channel Transport: the channel stays set and a further
publish is still delivered. -/
theorem C8_amended (s : SessionState) (h : s.hasChannel = true) :
    closeSession s =
      { isActive := false, isLoading := false, hasChannel := s.hasChannel,
        processor := false, sourceNode := false, audioPlayer := false,
        audioStream := false, audioContext := false,
        published := s.published ++ ["audioStop"] } ∧
    ∀ e : String, (dispatchEvent e (closeSession s)).published =
        s.published ++ ["audioStop", e] := by
  have h1 : closeSession s =
      { isActive := false, isLoading := false, hasChannel := s.hasChannel,
        processor := false, sourceNode := false, audioPlayer := false,
        audioStream := false, audioContext := false,
        published := s.published ++ ["audioStop"] } := by
    unfold closeSession stopRecording dispatchEvent
    simp [h]
  refine ⟨h1, fun e => ?_⟩
  rw [h1]
  unfold dispatchEvent
  simp [h]

theorem enqueuedChunks_cons_enqueue (c : String) (steps : List SchedStep) :
    enqueuedChunks (SchedStep.enqueue c :: steps) = c :: enqueuedChunks steps := rfl

theorem enqueuedChunks_cons_tick (steps : List SchedStep) :
    enqueuedChunks (SchedStep.tick :: steps) = enqueuedChunks steps := rfl

/-- Trace invariant: chunks in the queue stay truthy, every published
batch has between the low-water mark (exclusive) and the high-water
mark (inclusive) chunks, and the published batches followed by the
queue reproduce the enqueued chunks in order. -/
theorem schedFoldl_invariant (steps : List SchedStep) (s : SchedState)
    (hq : ∀ c ∈ s.queue, c ≠ "")
    (hb : ∀ b ∈ s.batches,
        MIN_AUDIO_CHUNKS_PER_BATCH < b.length ∧ b.length ≤ MAX_AUDIO_CHUNKS_PER_BATCH)
    (hne : ∀ c ∈ enqueuedChunks steps, c ≠ "") :
    (∀ c ∈ (steps.foldl (fun s st => schedStep st s) s).queue, c ≠ "") ∧
    (∀ b ∈ (steps.foldl (fun s st => schedStep st s) s).batches,
        MIN_AUDIO_CHUNKS_PER_BATCH < b.length ∧ b.length ≤ MAX_AUDIO_CHUNKS_PER_BATCH) ∧
    (steps.foldl (fun s st => schedStep st s) s).batches.flatten ++
        (steps.foldl (fun s st => schedStep st s) s).queue =
      s.batches.flatten ++ s.queue ++ enqueuedChunks steps := by
  induction steps generalizing s with
  | nil => simpa [enqueuedChunks] using ⟨hq, hb⟩
  | cons st steps ih =>
    cases st with
    | enqueue c =>
      have hc : c ≠ "" := hne c (by rw [enqueuedChunks_cons_enqueue]; exact List.mem_cons_self c _)
      have hq' : ∀ x ∈ (schedStep (SchedStep.enqueue c) s).queue, x ≠ "" := by
        intro x hx
        rcases List.mem_append.mp hx with h | h
        · exact hq x h
        · rw [List.mem_singleton] at h
          subst h
          exact hc
      have hne' : ∀ x ∈ enqueuedChunks steps, x ≠ "" := fun x hx =>
        hne x (by rw [enqueuedChunks_cons_enqueue]; exact List.mem_cons_of_mem c hx)
      obtain ⟨i1, i2, i3⟩ := ih (schedStep (SchedStep.enqueue c) s) hq' hb hne'
      refine ⟨i1, i2, ?_⟩
      rw [List.foldl_cons, i3, enqueuedChunks_cons_enqueue]
      show s.batches.flatten ++ (s.queue ++ [c]) ++ enqueuedChunks steps = _
      simp [List.append_assoc]
    | tick =>
      by_cases hlen : s.queue.length > MIN_AUDIO_CHUNKS_PER_BATCH
      · have hstep : schedStep SchedStep.tick s =
            { queue := s.queue.drop MAX_AUDIO_CHUNKS_PER_BATCH,
              batches := s.batches ++ [s.queue.take MAX_AUDIO_CHUNKS_PER_BATCH] } := by
          show (let o := processAudioInputTick true true s.queue;
                ({ queue := o.queue, batches := s.batches ++ o.published } : SchedState)) = _
          rw [processAudioInputTick_publishes s.queue hq hlen]
        have hq' : ∀ x ∈ s.queue.drop MAX_AUDIO_CHUNKS_PER_BATCH, x ≠ "" :=
          fun x hx => hq x (List.mem_of_mem_drop hx)
        have hb' : ∀ b ∈ s.batches ++ [s.queue.take MAX_AUDIO_CHUNKS_PER_BATCH],
            MIN_AUDIO_CHUNKS_PER_BATCH < b.length ∧
              b.length ≤ MAX_AUDIO_CHUNKS_PER_BATCH := by
          intro b hbmem
          rcases List.mem_append.mp hbmem with h | h
          · exact hb b h
          · rw [List.mem_singleton] at h
            subst h
            have h10 : MIN_AUDIO_CHUNKS_PER_BATCH = 10 := rfl
            have h20 : MAX_AUDIO_CHUNKS_PER_BATCH = 20 := rfl
            rw [List.length_take, h10, h20]
            rw [h10] at hlen
            omega
        have hne' : ∀ x ∈ enqueuedChunks steps, x ≠ "" := fun x hx =>
          hne x (by rw [enqueuedChunks_cons_tick]; exact hx)
        obtain ⟨i1, i2, i3⟩ := ih
          { queue := s.queue.drop MAX_AUDIO_CHUNKS_PER_BATCH,
            batches := s.batches ++ [s.queue.take MAX_AUDIO_CHUNKS_PER_BATCH] } hq' hb' hne'
        refine ⟨?_, ?_, ?_⟩ <;> rw [List.foldl_cons, hstep]
        · exact i1
        · exact i2
        · rw [i3, enqueuedChunks_cons_tick]
          show (s.batches ++ [s.queue.take MAX_AUDIO_CHUNKS_PER_BATCH]).flatten ++
              s.queue.drop MAX_AUDIO_CHUNKS_PER_BATCH ++ enqueuedChunks steps = _
          rw [List.flatten_append, List.flatten_cons, List.flatten_nil, List.append_nil]
          simp only [List.append_assoc]
          rw [← List.append_assoc (s.queue.take MAX_AUDIO_CHUNKS_PER_BATCH)
              (s.queue.drop MAX_AUDIO_CHUNKS_PER_BATCH) (enqueuedChunks steps),
            List.take_append_drop]
      · have hstep : schedStep SchedStep.tick s = s := by
          show (let o := processAudioInputTick true true s.queue;
                ({ queue := o.queue, batches := s.batches ++ o.published } : SchedState)) = _
          rw [processAudioInputTick_skip true true s.queue hlen]
          simp
        have hne' : ∀ x ∈ enqueuedChunks steps, x ≠ "" := fun x hx =>
          hne x (by rw [enqueuedChunks_cons_tick]; exact hx)
        obtain ⟨i1, i2, i3⟩ := ih s hq hb hne'
        refine ⟨?_, ?_, ?_⟩ <;> rw [List.foldl_cons, hstep]
        · exact i1
        · exact i2
        · rw [i3, enqueuedChunks_cons_tick]

/-- C6: over any trace of single-chunk enqueues (of truthy chunks) and
successful scheduler ticks, every published audioInput batch holds
strictly more than `MIN_AUDIO_CHUNKS_PER_BATCH` and at most
`MAX_AUDIO_CHUNKS_PER_BATCH` chunks, and batches preserve the original
enqueue order: the published batches followed by the residual queue
reproduce the enqueued chunks exactly.  In particular no undersized
batch is ever published. -/
theorem C6_batch_bounds (steps : List SchedStep)
    (hne : ∀ c ∈ enqueuedChunks steps, c ≠ "") :
    (∀ b ∈ (schedRun steps).batches,
        MIN_AUDIO_CHUNKS_PER_BATCH < b.length ∧
          b.length ≤ MAX_AUDIO_CHUNKS_PER_BATCH) ∧
    (schedRun steps).batches.flatten ++ (schedRun steps).queue =
      enqueuedChunks steps := by
  obtain ⟨i1, i2, i3⟩ :=
    schedFoldl_invariant steps { queue := [], batches := [] }
      (by simp) (by simp) hne
  refine ⟨i2, ?_⟩
  rw [show schedRun steps = steps.foldl (fun s st => schedStep st s)
      { queue := [], batches := [] } from rfl, i3]
  simp

/-- Witness for C6 at the concrete trace `steps12Ex`. -/
theorem C6_batch_bounds_witness :
    (∀ b ∈ (schedRun steps12Ex).batches,
        MIN_AUDIO_CHUNKS_PER_BATCH < b.length ∧
          b.length ≤ MAX_AUDIO_CHUNKS_PER_BATCH) ∧
    (schedRun steps12Ex).batches.flatten ++ (schedRun steps12Ex).queue =
      enqueuedChunks steps12Ex :=
  C6_batch_bounds steps12Ex (by decide)

/-- C9: the claim states that the round trip is elementwise within
1/32768 of the (clamped) input.  Counterexample: for the sample
32769/65536 (an exactly representable float32 value in [-1, 1]) the
round trip yields 16383/32768, which is 3/65536 away from the input —
strictly more than 1/32768 = 2/65536. -/
theorem C9_counterexample :
    roundTrip [(32769 : Rat) / 65536] = [(16383 : Rat) / 32768] ∧
    ¬ |(16383 : Rat) / 32768 - clampSample ((32769 : Rat) / 65536)| ≤ 1 / 32768 := by
  have hc : clampSample ((32769 : Rat) / 65536) = 32769 / 65536 := by
    unfold clampSample
    rw [min_eq_right (by norm_num), max_eq_right (by norm_num)]
  have hfloor : truncRat (clampSample ((32769 : Rat) / 65536) * 32767) = 16383 := by
    rw [hc]
    unfold truncRat
    rw [if_pos (by norm_num),
      show (32769 : Rat) / 65536 * 32767 = 1073741823 / 65536 by norm_num,
      Int.floor_eq_iff]
    constructor <;> norm_num
  constructor
  · show [(truncRat (clampSample ((32769 : Rat) / 65536) * 32767) : Rat) / 32768] = _
    rw [hfloor]
    norm_num
  · rw [hc, show (16383 : Rat) / 32768 - 32769 / 65536 = -(3 / 65536) by norm_num,
      abs_neg, abs_of_pos (by norm_num : (0 : Rat) < 3 / 65536)]
    norm_num

/-- Truncation toward zero is within one of its argument. -/
theorem truncRat_sub_lt_one (q : Rat) : |(truncRat q : Rat) - q| < 1 := by
  unfold truncRat
  by_cases h : 0 ≤ q
  · rw [if_pos h, abs_lt]
    have h1 := Int.floor_le q
    have h2 := Int.lt_floor_add_one q
    constructor <;> linarith
  · rw [if_neg h, abs_lt]
    have h1 := Int.le_ceil q
    have h2 := Int.ceil_lt_add_one q
    constructor <;> linarith

/-- The clamped sample lies in [-1, 1]. -/
theorem clampSample_abs_le_one (x : Rat) : |clampSample x| ≤ 1 := by
  unfold clampSample
  rw [abs_le]
  exact ⟨le_max_left _ _, max_le (by norm_num) (min_le_left _ _)⟩

/-- One sample of the round trip is within 2/32768 = 1/16384 of the
clamped input. -/
theorem roundTripSample_close (x : Rat) :
    |(truncRat (clampSample x * 32767) : Rat) / 32768 - clampSample x| < 1 / 16384 := by
  have h1 := truncRat_sub_lt_one (clampSample x * 32767)
  have h2 := clampSample_abs_le_one x
  have key : |(truncRat (clampSample x * 32767) : Rat) - 32768 * clampSample x| < 2 := by
    have hsplit : (truncRat (clampSample x * 32767) : Rat) - 32768 * clampSample x =
        ((truncRat (clampSample x * 32767) : Rat) - clampSample x * 32767) +
          (-(clampSample x)) := by ring
    calc |(truncRat (clampSample x * 32767) : Rat) - 32768 * clampSample x|
        ≤ |(truncRat (clampSample x * 32767) : Rat) - clampSample x * 32767| +
            |-(clampSample x)| := by rw [hsplit]; exact abs_add _ _
      _ < 1 + 1 := by rw [abs_neg]; exact add_lt_add_of_lt_of_le h1 h2
      _ = 2 := by norm_num
  have hdiv : (truncRat (clampSample x * 32767) : Rat) / 32768 - clampSample x =
      ((truncRat (clampSample x * 32767) : Rat) - 32768 * clampSample x) / 32768 := by
    ring
  rw [hdiv, abs_div, abs_of_pos (by norm_num : (0 : Rat) < 32768),
    div_lt_iff₀ (by norm_num : (0 : Rat) < 32768)]
  calc |(truncRat (clampSample x * 32767) : Rat) - 32768 * clampSample x|
      < 2 := key
    _ = 1 / 16384 * 32768 := by norm_num

/-- C9 (amended): the round trip `pcm16ToFloat(floatToPCM16(x))` is
elementwise within 2/32768 (strictly) of the clamped input —
quantization truncates toward zero, so the error can exceed one half
step and even one full step of 1/32768, but never two. -/
theorem C9_amended (xs : List Rat) :
    List.Forall₂ (fun y x => |y - clampSample x| < 1 / 16384) (roundTrip xs) xs := by
  induction xs with
  | nil => exact List.Forall₂.nil
  | cons x rest ih =>
    show List.Forall₂ _
      ((truncRat (clampSample x * 32767) : Rat) / 32768 :: roundTrip rest) (x :: rest)
    exact List.Forall₂.cons (roundTripSample_close x) ih

/-- C7: the claim states that a malformed base64 chunk is dropped and
processing continues, the handler propagating no exception.
Counterexample: on the envelope `["AAA=", "####", "AAA="]` the handler
rethrows the decode error of the middle chunk (the third chunk is never
played), while the spec-side behavior would play the two good chunks. -/
theorem C7_counterexample :
    playChunks ["AAA=", "####", "AAA="] = .error "InvalidCharacterError" ∧
    specPlayChunks ["AAA=", "####", "AAA="] = [[0], [0]] := by
  constructor
  · rfl
  · have h : specPlayChunks ["AAA=", "####", "AAA="] =
        [int16ToFloat32Array [0], int16ToFloat32Array [0]] := rfl
    rw [h]
    simp [int16ToFloat32Array]

/-- C7 (amended): a malformed or undecodable chunk makes
`base64ToFloat32Array` log and rethrow, and the subscription handler
propagates that exception: the envelope's remaining chunks are not
played (the session itself is not torn down by the handler, but the
chunk is not simply dropped). -/
theorem C7_amended (c : String) (rest : List String) (e : String)
    (hc : c ≠ "") (he : base64ToFloat32Array c = .error e) :
    playChunks (c :: rest) = .error e := by
  unfold playChunks
  rw [if_neg hc, he]

/-- Witness for C7 (amended) at the concrete malformed chunk. -/
theorem C7_amended_witness :
    playChunks ["####", "AAA="] = .error "InvalidCharacterError" :=
  C7_amended "####" ["AAA="] "InvalidCharacterError" (by decide) (by rfl)

/-- Witness for C8 (amended) at the concrete active session state. -/
theorem C8_amended_witness :
    closeSession sessionActiveEx =
      { isActive := false, isLoading := false,
        hasChannel := sessionActiveEx.hasChannel,
        processor := false, sourceNode := false, audioPlayer := false,
        audioStream := false, audioContext := false,
        published := sessionActiveEx.published ++ ["audioStop"] } ∧
    ∀ e : String, (dispatchEvent e (closeSession sessionActiveEx)).published =
        sessionActiveEx.published ++ ["audioStop", e] :=
  C8_amended sessionActiveEx rfl

end SpeechToSpeech
